import Mathlib

/-!
Verification of `app.py` ("AI Money Machine" generator).

Python strings are modelled as `List Char`; Python floats used for clip
durations and caption timestamps are modelled as exact rationals `ℚ`.
Every definition below is a direct translation of the corresponding
function in `app.py`, keeping the source names.
-/

set_option maxRecDepth 100000

namespace AIMoneyMachine

/-- A Python string. -/
abbrev PyStr := List Char

/-- Python `str.lower()` (character-wise lowering suffices for ASCII data). -/
def pyLower (s : PyStr) : PyStr := s.map Char.toLower

/-- Stripping all space characters from a string (`s.replace(" ", "")`). -/
def stripSpaces (s : PyStr) : PyStr := s.filter (fun c => c ≠ ' ')

/-- Python `script.split("\n")`: split at every newline, keeping empty
parts; on the empty string it yields `[""]`. -/
def splitNl : PyStr → List PyStr
  | [] => [[]]
  | c :: cs =>
    if c = '\n' then [] :: splitNl cs
    else
      match splitNl cs with
      | [] => [[c]]
      | p :: ps => (c :: p) :: ps

theorem splitNl_ne_nil (s : PyStr) : splitNl s ≠ [] := by
  induction s with
  | nil => simp [splitNl]
  | cons c cs ih =>
    by_cases h : c = '\n'
    · simp [splitNl, h]
    · cases hs : splitNl cs with
      | nil => exact absurd hs ih
      | cons p ps => simp [splitNl, h, hs]

theorem splitNl_length_pos (s : PyStr) : 0 < (splitNl s).length :=
  List.length_pos.mpr (splitNl_ne_nil s)

/-- Python `" ".join(xs)`. -/
def joinSpace (xs : List PyStr) : PyStr := List.intercalate [' '] xs

/-! ## Config (class `Config` in `app.py`) -/

/-- `Config.BG_PATHS`: the background-choice dictionary, as a lookup. -/
def BG_PATHS (choice : PyStr) : Option PyStr :=
  if choice = "Abstract".data then some "assets/backgrounds/abstract.mp4".data
  else if choice = "Nature".data then some "assets/backgrounds/nature.mp4".data
  else if choice = "Tech".data then some "assets/backgrounds/tech.mp4".data
  else none

/-- `Config.HASHTAGS["general"]`. -/
def HASHTAGS_general : List PyStr :=
  ["#Viral2024".data, "#MoneyHack".data, "#SuccessTips".data]

/-- `Config.HASHTAGS["marketing"]`. -/
def HASHTAGS_marketing : List PyStr :=
  ["#DigitalMarketing".data, "#SEO".data, "#GrowthHacking".data]

/-- `Config.HASHTAGS["finance"]`. -/
def HASHTAGS_finance : List PyStr :=
  ["#Investing".data, "#FinancialFreedom".data, "#WealthBuilding".data]

/-- `Config.HASHTAGS` as a dictionary lookup (`dict.get` semantics). -/
def HASHTAGS (key : PyStr) : Option (List PyStr) :=
  if key = "general".data then some HASHTAGS_general
  else if key = "marketing".data then some HASHTAGS_marketing
  else if key = "finance".data then some HASHTAGS_finance
  else none

/-! ## `generate_seo_content` and the script built in `process_generation` -/

/-- The dictionary returned by `generate_seo_content`. -/
structure SEO where
  title : PyStr
  description : PyStr
  hashtags : List PyStr
  keywords : List PyStr

/-- `generate_seo_content(niche, url)` from `app.py`. -/
def generate_seo_content (niche url : PyStr) : SEO where
  title := niche ++ " Secret Revealed 2024".data
  description :=
    "Discover the viral ".data ++ niche ++ " method. Click here: ".data ++ url
  hashtags := ((HASHTAGS (pyLower niche)).getD HASHTAGS_general).take 3
  keywords := [niche, "make money online".data, "viral method".data]

/-- The script string assembled in `process_generation`:
`f"{seo['title']}\n\n{seo['description']}\n\n{' '.join(seo['hashtags'])}"`. -/
def buildScript (seo : SEO) : PyStr :=
  seo.title ++ "\n\n".data ++ seo.description ++ "\n\n".data ++ joinSpace seo.hashtags

/-- The hashtag the spec says the script carries: `#` followed by the niche
with spaces removed and lowercased. (Transcribed from the spec for
comparison; `app.py` has no such derivation.) -/
def specNicheHashtag (niche : PyStr) : PyStr :=
  '#' :: pyLower (stripSpaces niche)

/-- C1 counterexample: for the non-empty triple
(niche `"Finance"`, tone `"Professional"`, url `"https://x.com"`) the script
built by `generate_seo_content` plus the formatting in `process_generation`
does NOT contain the hashtag `#finance` (the niche with spaces removed and
lowercased): the hashtags come from the fixed `Config.HASHTAGS` table, here
the "finance" entry `#Investing #FinancialFreedom #WealthBuilding`. -/
theorem C1_counterexample :
    ¬ specNicheHashtag "Finance".data <:+:
        buildScript (generate_seo_content "Finance".data "https://x.com".data) := by
  decide

/-- C1 (amended): for every non-empty niche and url, the script built for
the request contains the niche and contains the url; the trailing hashtags
are the first three entries of the `Config.HASHTAGS` table looked up by the
lowercased niche (falling back to the `"general"` list), not a hashtag
derived from the niche. The form has no tone input in `app.py`. -/
theorem C1_script_contains_niche_url (niche url : PyStr)
    (hn : niche ≠ []) (hu : url ≠ []) :
    (niche <:+: buildScript (generate_seo_content niche url)) ∧
      (url <:+: buildScript (generate_seo_content niche url)) := by
  constructor
  · exact ⟨[],
      " Secret Revealed 2024".data ++ "\n\n".data ++
        ("Discover the viral ".data ++ niche ++ " method. Click here: ".data ++ url) ++
        "\n\n".data ++ joinSpace (generate_seo_content niche url).hashtags,
      by simp [buildScript, generate_seo_content, List.append_assoc]⟩
  · exact ⟨niche ++ " Secret Revealed 2024".data ++ "\n\n".data ++
        "Discover the viral ".data ++ niche ++ " method. Click here: ".data,
      "\n\n".data ++ joinSpace (generate_seo_content niche url).hashtags,
      by simp [buildScript, generate_seo_content, List.append_assoc]⟩

/-- Witness for `C1_script_contains_niche_url` at a concrete non-empty pair. -/
theorem C1_script_contains_niche_url_witness :
    ("Finance".data : PyStr) ≠ [] ∧ ("https://x.com".data : PyStr) ≠ [] ∧
      (("Finance".data : PyStr) <:+:
          buildScript (generate_seo_content "Finance".data "https://x.com".data)) ∧
        (("https://x.com".data : PyStr) <:+:
          buildScript (generate_seo_content "Finance".data "https://x.com".data)) :=
  ⟨by decide, by decide,
    C1_script_contains_niche_url "Finance".data "https://x.com".data
      (by decide) (by decide)⟩

/-! ## PIL image model and `create_video_thumbnail` -/

/-- A PIL image: its pixel dimensions plus a record of the draw/paste
operations performed on it (text draws and pasted regions). -/
structure PILImage where
  width : Nat
  height : Nat
  texts : List (Nat × Nat × PyStr)
  pastes : List (Nat × Nat × Nat × Nat)
deriving DecidableEq

/-- `Image.new("RGB", (w, h), color)`: PIL sizes are `(width, height)`. -/
def imageNew (w h : Nat) : PILImage := ⟨w, h, [], []⟩

/-- `draw.text((x, y), txt, ...)`: records the draw, leaves the size alone. -/
def drawText (img : PILImage) (x y : Nat) (txt : PyStr) : PILImage :=
  { img with texts := img.texts ++ [(x, y, txt)] }

/-- `img.resize((w, h))`. -/
def imageResize (img : PILImage) (w h : Nat) : PILImage :=
  { img with width := w, height := h }

/-- `img.paste(p, (x, y))`: records the pasted region, leaves the size alone. -/
def imagePaste (img p : PILImage) (x y : Nat) : PILImage :=
  { img with pastes := img.pastes ++ [(x, y, p.width, p.height)] }

/-- `create_video_thumbnail(title, hashtags, qr_path)` from `app.py`;
`qr` stands for `Image.open(qr_path)`. -/
def create_video_thumbnail (title : PyStr) (hashtags : List PyStr)
    (qr : PILImage) : PILImage :=
  let img := imageNew 1280 720
  let img := drawText img 100 100 title
  let img := drawText img 100 600 (joinSpace hashtags)
  let qr_img := imageResize qr 200 200
  imagePaste img qr_img 1000 500

/-- C2 counterexample: at a concrete (title, hashtag list, QR image) the
thumbnail returned by `create_video_thumbnail` is not 720 pixels wide and
1280 pixels tall — `Image.new` is called with size `(1280, 720)`, i.e.
1280 wide and 720 tall. -/
theorem C2_counterexample :
    ¬ ((create_video_thumbnail "Finance".data HASHTAGS_finance
          (imageNew 33 47)).width = 720 ∧
       (create_video_thumbnail "Finance".data HASHTAGS_finance
          (imageNew 33 47)).height = 1280) := by
  decide

/-- C2 (amended): for every title, hashtag list and QR image, the image
returned by `create_video_thumbnail` is exactly 1280 pixels wide and
720 pixels tall, regardless of the length of the title text. -/
theorem C2_thumbnail_size (title : PyStr) (hashtags : List PyStr)
    (qr : PILImage) :
    (create_video_thumbnail title hashtags qr).width = 1280 ∧
      (create_video_thumbnail title hashtags qr).height = 720 := by
  constructor <;> rfl

/-! ## moviepy clip model and `render_video` -/

/-- An audio clip (`AudioFileClip(audio_path)`). -/
structure AudioClip where
  path : PyStr
deriving DecidableEq

/-- A moviepy video-clip expression, as `render_video` builds them:
caption `TextClip`s with an assigned duration, a background file clip
looped to a duration, concatenation, compositing, and audio attachment. -/
inductive VClip where
  | text (line : PyStr) (dur : ℚ)
  | loop (path : PyStr) (dur : ℚ)
  | concat (clips : List VClip)
  | composite (clips : List VClip)
  | withAudio (base : VClip) (audio : AudioClip)

mutual

/-- Clip duration: `TextClip(...).set_duration(d)` has duration `d`,
`VideoFileClip(p).loop(duration=d)` has duration `d`,
`concatenate_videoclips` sums, `CompositeVideoClip` takes the latest end
(all clips start at 0), `set_audio` keeps the video duration. -/
def VClip.duration : VClip → ℚ
  | .text _ d => d
  | .loop _ d => d
  | .concat cs => durSum cs
  | .composite cs => durMax cs
  | .withAudio b _ => VClip.duration b

/-- Sum of the durations of a list of clips. -/
def durSum : List VClip → ℚ
  | [] => 0
  | c :: cs => VClip.duration c + durSum cs

/-- Maximum of the durations of a list of clips (0 for none). -/
def durMax : List VClip → ℚ
  | [] => 0
  | c :: cs => max (VClip.duration c) (durMax cs)

end

mutual

/-- Whether a clip expression contains a `CompositeVideoClip` node. -/
def VClip.hasComposite : VClip → Bool
  | .text _ _ => false
  | .loop _ _ => false
  | .concat cs => anyComposite cs
  | .composite _ => true
  | .withAudio b _ => VClip.hasComposite b

/-- Whether any clip in the list contains a `CompositeVideoClip` node. -/
def anyComposite : List VClip → Bool
  | [] => false
  | c :: cs => VClip.hasComposite c || anyComposite cs

end

mutual

/-- Whether a clip expression contains a looped background clip. -/
def VClip.hasLoop : VClip → Bool
  | .text _ _ => false
  | .loop _ _ => true
  | .concat cs => anyLoop cs
  | .composite cs => anyLoop cs
  | .withAudio b _ => VClip.hasLoop b

/-- Whether any clip in the list contains a looped background clip. -/
def anyLoop : List VClip → Bool
  | [] => false
  | c :: cs => VClip.hasLoop c || anyLoop cs

end

/-- The caption track of `render_video`: one `TextClip` of duration 3 per
line of the script, concatenated sequentially. -/
def captionTrack (script : PyStr) : VClip :=
  VClip.concat ((splitNl script).map (fun line => VClip.text line 3))

/-- `render_video(script, audio_path, bg_choice, uid, tmp_dir)` from
`app.py`, as the clip expression it encodes. `bgFileExists` models
`os.path.exists` on the background asset path. -/
def render_video (script : PyStr) (audio_path : PyStr) (bg_choice : PyStr)
    (bgFileExists : PyStr → Bool) : VClip :=
  let video := captionTrack script
  let video :=
    match BG_PATHS bg_choice with
    | some p =>
        if bgFileExists p then
          VClip.composite [VClip.loop p video.duration, video]
        else video
    | none => video
  VClip.withAudio video ⟨audio_path⟩

theorem durSum_text3 (lines : List PyStr) :
    durSum (lines.map (fun line => VClip.text line 3)) = 3 * lines.length := by
  induction lines with
  | nil => simp [durSum]
  | cons l ls ih =>
    simp only [List.map_cons, durSum, VClip.duration, ih, List.length_cons]
    push_cast
    ring

theorem captionTrack_duration (script : PyStr) :
    (captionTrack script).duration = 3 * (splitNl script).length := by
  simp [captionTrack, VClip.duration, durSum_text3]

/-- C3: for every script, background choice (and audio path, and state of
the background asset file), the video produced by `render_video` has
duration `3 × (number of lines of the script)`, lines as produced by
splitting the script on newline: each line becomes a 3-second caption clip
and the clips are concatenated sequentially. -/
theorem C3_render_video_duration (script audio_path bg_choice : PyStr)
    (bgFileExists : PyStr → Bool) :
    (render_video script audio_path bg_choice bgFileExists).duration =
      3 * (splitNl script).length := by
  have hcap := captionTrack_duration script
  unfold render_video
  cases hbg : BG_PATHS bg_choice with
  | none => simpa [VClip.duration] using hcap
  | some p =>
    by_cases hex : bgFileExists p = true
    · simp only [hex, if_true, VClip.duration, durMax, captionTrack,
        durSum_text3]
      have h0 : (0 : ℚ) ≤ 3 * (splitNl script).length := by positivity
      rw [max_eq_left h0, max_self]
    · simp only [hex, if_false, Bool.false_eq_true]
      simpa [VClip.duration] using hcap

theorem anyComposite_text3 (lines : List PyStr) :
    anyComposite (lines.map (fun line => VClip.text line 3)) = false := by
  induction lines with
  | nil => rfl
  | cons l ls ih => simp [anyComposite, VClip.hasComposite, ih]

theorem anyLoop_text3 (lines : List PyStr) :
    anyLoop (lines.map (fun line => VClip.text line 3)) = false := by
  induction lines with
  | nil => rfl
  | cons l ls ih => simp [anyLoop, VClip.hasLoop, ih]

/-- C7: choosing the `"Plain black"` background (any choice outside
`Config.BG_PATHS`) skips the background branch of `render_video` entirely:
the produced clip expression contains no `CompositeVideoClip` and no looped
background clip, and its duration is no larger than the duration of the
caption-only concatenation. -/
theorem C7_plain_black_skips_compositing (script audio_path : PyStr)
    (bgFileExists : PyStr → Bool) :
    (render_video script audio_path "Plain black".data
        bgFileExists).hasComposite = false ∧
      (render_video script audio_path "Plain black".data
        bgFileExists).hasLoop = false ∧
      (render_video script audio_path "Plain black".data
          bgFileExists).duration ≤ (captionTrack script).duration := by
  have hbg : BG_PATHS "Plain black".data = none := by decide
  refine ⟨?_, ?_, ?_⟩ <;>
    simp [render_video, hbg, VClip.hasComposite, VClip.hasLoop,
      VClip.duration, captionTrack, anyComposite_text3, anyLoop_text3]

/-! ## Paths, `create_zip_package` and the packaged artifact names -/

/-- `os.path.join(dir, file)` for a relative `file` on a POSIX system. -/
def path_join (dir file : PyStr) : PyStr := dir ++ '/' :: file

/-- `os.path.basename(p)`: everything after the last `/`. -/
def basename (p : PyStr) : PyStr :=
  p.foldl (fun acc c => if c = '/' then [] else acc ++ [c]) []

/-- `create_zip_package(tmp_dir, uid, files)` from `app.py`: the archive
path together with the entry names the files are stored under
(`zipf.write(file, os.path.basename(file))`). -/
def create_zip_package (tmp_dir uid : PyStr) (files : List PyStr) :
    PyStr × List PyStr :=
  (path_join tmp_dir ("package_".data ++ uid ++ ".zip".data),
    files.map basename)

/-- The file list `process_generation` passes to `create_zip_package`:
`[video_path, audio_path, thumb_path, captions_path]`. -/
def packagedFiles (tmp_dir uid : PyStr) : List PyStr :=
  [path_join tmp_dir ("video_".data ++ uid ++ ".mp4".data),
   path_join tmp_dir ("audio_".data ++ uid ++ ".mp3".data),
   path_join tmp_dir ("thumb_".data ++ uid ++ ".jpg".data),
   path_join tmp_dir ("captions_".data ++ uid ++ ".vtt".data)]

/-- The four artifact base names the spec says the package contains
(transcribed from the spec's output-file list for comparison: script,
audio, video, thumbnail). -/
def specPackageNames (uid : PyStr) : List PyStr :=
  ["script_".data ++ uid ++ ".txt".data,
   "audio_".data ++ uid ++ ".mp3".data,
   "video_".data ++ uid ++ ".mp4".data,
   "thumbnail_".data ++ uid ++ ".jpg".data]

theorem basename_foldl_no_slash (f : PyStr) (acc : PyStr)
    (hf : ∀ c ∈ f, c ≠ '/') :
    f.foldl (fun acc c => if c = '/' then [] else acc ++ [c]) acc =
      acc ++ f := by
  induction f generalizing acc with
  | nil => simp
  | cons c cs ih =>
    have hc : c ≠ '/' := hf c (by simp)
    simp only [List.foldl_cons, if_neg hc]
    rw [ih _ (fun d hd => hf d (by simp [hd]))]
    simp

theorem basename_path_join (dir f : PyStr) (hf : ∀ c ∈ f, c ≠ '/') :
    basename (path_join dir f) = f := by
  unfold basename path_join
  rw [List.foldl_append, List.foldl_cons, if_pos rfl,
    basename_foldl_no_slash f [] hf]
  simp

/-- C4 counterexample: for a concrete run (uid `"deadbeef"`, directory
`"/tmp/x"`) the zip built by `create_zip_package` from the files
`process_generation` passes it does NOT store each entry under one of the
four artifact base names the spec lists (script, audio, video, thumbnail):
the entries are video, audio, thumb and captions files — a captions entry
appears and no script entry exists. -/
theorem C4_counterexample :
    ¬ ∀ e ∈ (create_zip_package "/tmp/x".data "deadbeef".data
          (packagedFiles "/tmp/x".data "deadbeef".data)).2,
        e ∈ specPackageNames "deadbeef".data := by
  decide

/-- C4 (amended): for every run directory and uid (uids are hex, so contain
no `/`), the zip archive produced by `create_zip_package` on the files
`process_generation` passes it contains exactly four entries, stored under
the base names `video_<uid>.mp4`, `audio_<uid>.mp3`, `thumb_<uid>.jpg` and
`captions_<uid>.vtt` — no script file is packaged. -/
theorem C4_zip_entries (tmp_dir uid : PyStr) (hu : ∀ c ∈ uid, c ≠ '/') :
    (create_zip_package tmp_dir uid (packagedFiles tmp_dir uid)).2 =
        ["video_".data ++ uid ++ ".mp4".data,
         "audio_".data ++ uid ++ ".mp3".data,
         "thumb_".data ++ uid ++ ".jpg".data,
         "captions_".data ++ uid ++ ".vtt".data] ∧
      (create_zip_package tmp_dir uid (packagedFiles tmp_dir uid)).2.length
        = 4 := by
  have hname : ∀ (pre post : PyStr), (∀ c ∈ pre, c ≠ '/') →
      (∀ c ∈ post, c ≠ '/') →
      basename (path_join tmp_dir (pre ++ uid ++ post)) = pre ++ uid ++ post := by
    intro pre post hpre hpost
    refine basename_path_join tmp_dir _ ?_
    intro c hc
    rcases List.mem_append.mp hc with hc | hc
    · rcases List.mem_append.mp hc with hc | hc
      · exact hpre c hc
      · exact hu c hc
    · exact hpost c hc
  constructor
  · simp only [create_zip_package, packagedFiles, List.map_cons,
      List.map_nil]
    rw [hname "video_".data ".mp4".data (by decide) (by decide),
      hname "audio_".data ".mp3".data (by decide) (by decide),
      hname "thumb_".data ".jpg".data (by decide) (by decide),
      hname "captions_".data ".vtt".data (by decide) (by decide)]
  · simp [create_zip_package, packagedFiles]

/-- Witness for `C4_zip_entries` at a concrete directory and uid. -/
theorem C4_zip_entries_witness :
    (∀ c ∈ ("deadbeef".data : PyStr), c ≠ '/') ∧
      ((create_zip_package "/tmp/x".data "deadbeef".data
          (packagedFiles "/tmp/x".data "deadbeef".data)).2 =
        ["video_deadbeef.mp4".data, "audio_deadbeef.mp3".data,
         "thumb_deadbeef.jpg".data, "captions_deadbeef.vtt".data] ∧
      (create_zip_package "/tmp/x".data "deadbeef".data
          (packagedFiles "/tmp/x".data "deadbeef".data)).2.length = 4) :=
  ⟨by decide, by
    have h := C4_zip_entries "/tmp/x".data "deadbeef".data (by decide)
    exact ⟨by rw [h.1]; decide, h.2⟩⟩

/-! ## The audio step of `process_generation` -/

/-- An effect a moviepy audio pass could apply to the saved file. -/
inductive AudioEffect where
  | fadein (secs : ℚ)
  | fadeout (secs : ℚ)
deriving DecidableEq

/-- The audio file written by `process_generation`: the text handed to the
speech synthesizer and the effects applied to the saved file. -/
structure AudioFileArtifact where
  text : PyStr
  effects : List AudioEffect
deriving DecidableEq

/-- The audio step of `process_generation` in `app.py`:
`tts = gTTS(script); tts.save(audio_path)` — the synthesized file is saved
as-is, with no effect pass. -/
def synthesize_audio (script : PyStr) : AudioFileArtifact :=
  { text := script, effects := [] }

/-! ## `generate_captions` -/

/-- A WebVTT caption: start time, end time and the text line. -/
structure Caption where
  start : ℚ
  stop : ℚ
  text : PyStr

/-- The caption list `generate_captions` builds: line `i` of the script is
timed from `i * segment` to `(i + 1) * segment` with
`segment = duration / len(lines)`. -/
def captionTimeline (script : PyStr) (duration : ℚ) : List Caption :=
  let lines := splitNl script
  let segment := duration / (lines.length : ℚ)
  lines.enum.map (fun p =>
    { start := (p.1 : ℚ) * segment
      stop := ((p.1 : ℚ) + 1) * segment
      text := p.2 })

/-- `generate_captions(script, duration)` from `app.py`; the guard models
the `ZeroDivisionError` Python would raise on `duration / len(lines)` were
the line list empty. -/
def generate_captions (script : PyStr) (duration : ℚ) :
    Option (List Caption) :=
  if (splitNl script).length = 0 then none
  else some (captionTimeline script duration)

/-! ## `process_generation`, `authenticate_user` and `main` -/

/-- The artifacts one run of `process_generation` constructs. -/
structure GenArtifacts where
  seo : SEO
  script : PyStr
  audio : AudioFileArtifact
  qrUrl : PyStr
  video : VClip
  thumbnail : PILImage
  captions : Option (List Caption)
  zipPath : PyStr
  zipEntries : List PyStr

/-- `process_generation(niche, url, bg_choice)` from `app.py`, as the pure
data flow of one run: `uid` and `tmp_dir` are the generated identifier and
temporary directory, `bgFileExists` models `os.path.exists`, and `qr`
stands for the decoded QR image `Image.open(qr_path)`. The captions are
timed against the rendered video's duration. -/
def process_generation (niche url bg_choice uid tmp_dir : PyStr)
    (bgFileExists : PyStr → Bool) (qr : PILImage) : GenArtifacts :=
  let seo := generate_seo_content niche url
  let script := buildScript seo
  let audio := synthesize_audio script
  let audio_path := path_join tmp_dir ("audio_".data ++ uid ++ ".mp3".data)
  let video := render_video script audio_path bg_choice bgFileExists
  let thumbnail := create_video_thumbnail seo.title seo.hashtags qr
  let captions := generate_captions script video.duration
  let zp := create_zip_package tmp_dir uid (packagedFiles tmp_dir uid)
  { seo := seo, script := script, audio := audio, qrUrl := url,
    video := video, thumbnail := thumbnail, captions := captions,
    zipPath := zp.1, zipEntries := zp.2 }

/-- `authenticate_user()` from `app.py`: a plain equality check of the
entered password against `Config.APP_PASSWORD`. -/
def authenticate_user (entered appPassword : PyStr) : Bool :=
  entered == appPassword

/-- What one interaction with `main()` amounts to. -/
inductive MainOutcome where
  | blocked
  | idle
  | generated (a : GenArtifacts)

/-- Whether the outcome carries generated artifacts. -/
def MainOutcome.producesArtifacts : MainOutcome → Bool
  | .generated _ => true
  | _ => false

/-- How many files the outcome's zip package holds (0 when none). -/
def MainOutcome.zipEntryCount : MainOutcome → Nat
  | .generated a => a.zipEntries.length
  | _ => 0

/-- `main()` from `app.py`: authentication gates everything; once the form
is submitted, `process_generation` is called directly on the field values —
there is no presence check on `niche` or `url` and no generation counter. -/
def main (entered appPassword : PyStr) (submitted : Bool)
    (niche url bg_choice uid tmp_dir : PyStr)
    (bgFileExists : PyStr → Bool) (qr : PILImage) : MainOutcome :=
  if authenticate_user entered appPassword then
    if submitted then
      .generated (process_generation niche url bg_choice uid tmp_dir
        bgFileExists qr)
    else .idle
  else .blocked

/-- C6 counterexample: for the concrete script `"Hi"`, the audio step of
`process_generation` applies neither a one-second fade-in nor a one-second
fade-out — `app.py` saves the `gTTS` output directly. -/
theorem C6_counterexample :
    ¬ (AudioEffect.fadein 1 ∈ (synthesize_audio "Hi".data).effects ∧
       AudioEffect.fadeout 1 ∈ (synthesize_audio "Hi".data).effects) := by
  decide

/-- C6 (amended): for every script, the audio step of `process_generation`
synthesizes exactly the script text through the external text-to-speech
provider and saves the file with no fade (or any other) effect applied. -/
theorem C6_audio_no_fades (niche url bg uid tmp : PyStr)
    (ex : PyStr → Bool) (qr : PILImage) :
    (process_generation niche url bg uid tmp ex qr).audio.text =
        buildScript (generate_seo_content niche url) ∧
      (process_generation niche url bg uid tmp ex qr).audio.effects = [] :=
  ⟨rfl, rfl⟩

/-- C5 counterexample: submitting with both required text fields empty
(niche `""`, url `""`) still runs the whole pipeline and produces the full
four-file package — `main` performs no presence check on the fields and
reports no validation error (and `app.py` holds no generation counter at
all). -/
theorem C5_counterexample :
    (main "p".data "p".data true [] [] "Abstract".data "deadbeef".data
        "/tmp/x".data (fun _ => false) (imageNew 33 47)).producesArtifacts
        = true ∧
      (main "p".data "p".data true [] [] "Abstract".data "deadbeef".data
        "/tmp/x".data (fun _ => false) (imageNew 33 47)).zipEntryCount
        = 4 :=
  ⟨rfl, rfl⟩

/-- C5 (amended): the generation workflow performs no presence check on the
required fields: once authenticated, submitting with an empty niche or an
empty url still dispatches straight to `process_generation` and produces
the full four-entry package; `app.py` keeps no generation counter. -/
theorem C5_no_presence_check (entered appPassword : PyStr)
    (hauth : authenticate_user entered appPassword = true)
    (niche url bg uid tmp : PyStr) (ex : PyStr → Bool) (qr : PILImage)
    (hempty : niche = [] ∨ url = []) :
    main entered appPassword true niche url bg uid tmp ex qr =
        .generated (process_generation niche url bg uid tmp ex qr) ∧
      (main entered appPassword true niche url bg uid tmp ex
        qr).zipEntryCount = 4 := by
  have h1 : main entered appPassword true niche url bg uid tmp ex qr =
      .generated (process_generation niche url bg uid tmp ex qr) := by
    simp [main, hauth]
  refine ⟨h1, ?_⟩
  rw [h1]
  simp [MainOutcome.zipEntryCount, process_generation, create_zip_package,
    packagedFiles]

/-- Witness for `C5_no_presence_check`: empty niche, concrete rest. -/
theorem C5_no_presence_check_witness :
    authenticate_user "p".data "p".data = true ∧
      (([] : PyStr) = [] ∨ ("https://x.com".data : PyStr) = []) ∧
      (main "p".data "p".data true [] "https://x.com".data "Abstract".data
          "deadbeef".data "/tmp/x".data (fun _ => false) (imageNew 33 47) =
        .generated (process_generation [] "https://x.com".data
          "Abstract".data "deadbeef".data "/tmp/x".data (fun _ => false)
          (imageNew 33 47)) ∧
      (main "p".data "p".data true [] "https://x.com".data "Abstract".data
          "deadbeef".data "/tmp/x".data (fun _ => false)
          (imageNew 33 47)).zipEntryCount = 4) :=
  ⟨by decide, Or.inl rfl,
    C5_no_presence_check "p".data "p".data (by decide) [] "https://x.com".data
      "Abstract".data "deadbeef".data "/tmp/x".data (fun _ => false)
      (imageNew 33 47) (Or.inl rfl)⟩

/-- C8: whenever the entered password differs from the `APP_PASSWORD` value
read from the environment, `authenticate_user` returns false and `main`
returns `blocked` before rendering the form — regardless of the form state,
`process_generation` is never reached. -/
theorem C8_wrong_password_blocks (entered appPassword : PyStr)
    (h : entered ≠ appPassword) (submitted : Bool)
    (niche url bg uid tmp : PyStr) (ex : PyStr → Bool) (qr : PILImage) :
    authenticate_user entered appPassword = false ∧
      main entered appPassword submitted niche url bg uid tmp ex qr =
        .blocked := by
  have hfalse : authenticate_user entered appPassword = false := by
    simp only [authenticate_user, beq_eq_false_iff_ne, ne_eq]
    exact h
  exact ⟨hfalse, by simp [main, hfalse]⟩

/-- Witness for `C8_wrong_password_blocks` at a concrete wrong password. -/
theorem C8_wrong_password_blocks_witness :
    ("x".data : PyStr) ≠ "default_password".data ∧
      (authenticate_user "x".data "default_password".data = false ∧
        main "x".data "default_password".data true [] [] "Abstract".data
          "deadbeef".data "/tmp/x".data (fun _ => false) (imageNew 33 47) =
          .blocked) :=
  ⟨by decide,
    C8_wrong_password_blocks "x".data "default_password".data (by decide)
      true [] [] "Abstract".data "deadbeef".data "/tmp/x".data
      (fun _ => false) (imageNew 33 47)⟩

/-- C9: for every script string (the empty string included) and every
duration, the line list `generate_captions` divides by is non-empty —
splitting any string on newline yields at least one part — so the
`duration / len(lines)` division never divides by zero and
`generate_captions` returns a caption list. -/
theorem C9_generate_captions_total (script : PyStr) (d : ℚ) :
    (splitNl script).length ≠ 0 ∧
      (generate_captions script d).isSome = true := by
  have h : (splitNl script).length ≠ 0 :=
    Nat.pos_iff_ne_zero.mp (splitNl_length_pos script)
  exact ⟨h, by simp [generate_captions, h]⟩

theorem captionTimeline_length (script : PyStr) (d : ℚ) :
    (captionTimeline script d).length = (splitNl script).length := by
  simp [captionTimeline]

theorem captionTimeline_get_start (script : PyStr) (d : ℚ) (i : ℕ)
    (h : i < (captionTimeline script d).length) :
    ((captionTimeline script d).get ⟨i, h⟩).start =
      (i : ℚ) * (d / ((splitNl script).length : ℚ)) := by
  simp [captionTimeline, List.get_eq_getElem, List.getElem_map,
    List.getElem_enum]

theorem captionTimeline_get_stop (script : PyStr) (d : ℚ) (i : ℕ)
    (h : i < (captionTimeline script d).length) :
    ((captionTimeline script d).get ⟨i, h⟩).stop =
      ((i : ℚ) + 1) * (d / ((splitNl script).length : ℚ)) := by
  simp [captionTimeline, List.get_eq_getElem, List.getElem_map,
    List.getElem_enum]

/-- C10: for every script (with `n` lines) and duration `d ≥ 0`,
`generate_captions` produces exactly `n` captions tiling `[0, d]`
contiguously: caption `i` runs from `i·(d/n)` to `(i+1)·(d/n)`, the first
caption starts at 0, each caption's end is the next caption's start, and
the last caption ends at `d`. -/
theorem C10_captions_tile (script : PyStr) (d : ℚ) (hd : 0 ≤ d) :
    generate_captions script d = some (captionTimeline script d) ∧
      (captionTimeline script d).length = (splitNl script).length ∧
      (∀ i (h : i < (captionTimeline script d).length),
        ((captionTimeline script d).get ⟨i, h⟩).start =
            (i : ℚ) * (d / ((splitNl script).length : ℚ)) ∧
          ((captionTimeline script d).get ⟨i, h⟩).stop =
            ((i : ℚ) + 1) * (d / ((splitNl script).length : ℚ))) ∧
      (∀ h0 : 0 < (captionTimeline script d).length,
        ((captionTimeline script d).get ⟨0, h0⟩).start = 0) ∧
      (∀ i (h : i + 1 < (captionTimeline script d).length),
        ((captionTimeline script d).get
            ⟨i, Nat.lt_of_succ_lt h⟩).stop =
          ((captionTimeline script d).get ⟨i + 1, h⟩).start) ∧
      (∀ h0 : 0 < (captionTimeline script d).length,
        ((captionTimeline script d).get
            ⟨(captionTimeline script d).length - 1,
              Nat.sub_lt h0 Nat.one_pos⟩).stop = d) := by
  have hn : (splitNl script).length ≠ 0 :=
    Nat.pos_iff_ne_zero.mp (splitNl_length_pos script)
  have hnq : ((splitNl script).length : ℚ) ≠ 0 := Nat.cast_ne_zero.mpr hn
  refine ⟨by simp [generate_captions, hn], captionTimeline_length script d,
    fun i h => ⟨captionTimeline_get_start script d i h,
      captionTimeline_get_stop script d i h⟩, ?_, ?_, ?_⟩
  · intro h0
    rw [captionTimeline_get_start script d 0 h0]
    simp
  · intro i h
    rw [captionTimeline_get_stop, captionTimeline_get_start]
    push_cast
    ring
  · intro h0
    rw [captionTimeline_get_stop]
    rw [captionTimeline_length] at h0 ⊢
    rw [Nat.cast_sub (Nat.one_le_iff_ne_zero.mpr hn)]
    push_cast
    field_simp

/-- Witness for `C10_captions_tile` at script `"a\nb"` and duration 6. -/
theorem C10_captions_tile_witness :
    (0 : ℚ) ≤ 6 ∧
      (generate_captions "a\nb".data 6 =
          some (captionTimeline "a\nb".data 6) ∧
        (captionTimeline "a\nb".data 6).length =
          (splitNl "a\nb".data).length ∧
        (∀ i (h : i < (captionTimeline "a\nb".data 6).length),
          ((captionTimeline "a\nb".data 6).get ⟨i, h⟩).start =
              (i : ℚ) * ((6 : ℚ) / ((splitNl "a\nb".data).length : ℚ)) ∧
            ((captionTimeline "a\nb".data 6).get ⟨i, h⟩).stop =
              ((i : ℚ) + 1) *
                ((6 : ℚ) / ((splitNl "a\nb".data).length : ℚ))) ∧
        (∀ h0 : 0 < (captionTimeline "a\nb".data 6).length,
          ((captionTimeline "a\nb".data 6).get ⟨0, h0⟩).start = 0) ∧
        (∀ i (h : i + 1 < (captionTimeline "a\nb".data 6).length),
          ((captionTimeline "a\nb".data 6).get
              ⟨i, Nat.lt_of_succ_lt h⟩).stop =
            ((captionTimeline "a\nb".data 6).get ⟨i + 1, h⟩).start) ∧
        (∀ h0 : 0 < (captionTimeline "a\nb".data 6).length,
          ((captionTimeline "a\nb".data 6).get
              ⟨(captionTimeline "a\nb".data 6).length - 1,
                Nat.sub_lt h0 Nat.one_pos⟩).stop = 6)) :=
  ⟨by norm_num, C10_captions_tile "a\nb".data 6 (by norm_num)⟩

end AIMoneyMachine
